import Mathlib

/-!
A shallow embedding of `src/ai_agents.py` from the Instagram profile
analyzer: post-statistics aggregation, structured prompt construction,
markdown-fence stripping, JSON recovery with brace-extraction fallback,
schema normalization, and the pipeline orchestrator
`analyze_instagram_profile`.  Python dictionaries produced by
`json.loads` and returned by the pipeline are modelled by the inductive
type `JVal`; machine-level floats are modelled by exact rationals;
Python exceptions are modelled by `Except`/`Option` results.
-/

/-- Characters that materialise as escapes inside Lean string literals. -/
def lbraceChar : Char := Char.ofNat 123

def rbraceChar : Char := Char.ofNat 125

def dquoteChar : Char := Char.ofNat 34

def squoteChar : Char := Char.ofNat 39

def bslashChar : Char := Char.ofNat 92

/-- A parsed JSON / Python value, as produced by `json.loads`:
`null`, booleans, numbers (modelled exactly as rationals), strings,
arrays and objects (association lists with distinct keys). -/
inductive JVal where
  | null : JVal
  | bool (b : Bool) : JVal
  | num (q : ℚ) : JVal
  | str (s : String) : JVal
  | arr (xs : List JVal) : JVal
  | obj (kvs : List (String × JVal)) : JVal
deriving Inhabited

/-- Python `d.get(key)` on a dict (modelled on `JVal.obj`); `none` on
any non-dict or missing key. -/
def JVal.get? (v : JVal) (key : String) : Option JVal :=
  match v with
  | .obj kvs => kvs.lookup key
  | _ => none

/-- Python `isinstance(v, str)` for a parsed JSON value. -/
def JVal.isStr : JVal → Bool
  | .str _ => true
  | _ => false

/-- Python `isinstance(v, dict)` for a parsed JSON value. -/
def JVal.isObj : JVal → Bool
  | .obj _ => true
  | _ => false

/-- Python `repr` of one character inside a quoted string (the common
escapes; exotic characters are kept verbatim, which no claim relies on). -/
def pyQuoteChar (c : Char) : String :=
  if c = bslashChar then String.mk [bslashChar, bslashChar]
  else if c = squoteChar then String.mk [bslashChar, squoteChar]
  else if c = '\n' then String.mk [bslashChar, 'n']
  else if c = '\r' then String.mk [bslashChar, 'r']
  else if c = '\t' then String.mk [bslashChar, 't']
  else String.singleton c

/-- Python `repr` of a string: single-quoted with escapes.  (CPython
switches to double quotes when the text holds a single quote; that
cosmetic rule is not modelled and no claim depends on it.) -/
def pyQuote (s : String) : String :=
  String.singleton squoteChar ++ String.join (s.data.map pyQuoteChar)
    ++ String.singleton squoteChar

/-- Python `str()` of a number parsed from JSON: integers print in
decimal; for non-integers the exact fraction stands in for CPython's
float formatting (no claim depends on those digits). -/
def pyNumStr (q : ℚ) : String :=
  if q.den = 1 then toString q.num else toString q

mutual

/-- Python `repr` of a parsed JSON value (`None`/`True`/`False`,
numbers, quoted strings, and bracketed lists / brace-wrapped dicts). -/
def pyRepr : JVal → String
  | .null => "None"
  | .bool b => if b then "True" else "False"
  | .num q => pyNumStr q
  | .str s => pyQuote s
  | .arr xs => "[" ++ pyReprList xs ++ "]"
  | .obj kvs =>
      String.singleton lbraceChar ++ pyReprObj kvs ++ String.singleton rbraceChar

/-- Comma-separated `repr` of list elements. -/
def pyReprList : List JVal → String
  | [] => ""
  | [x] => pyRepr x
  | x :: xs => pyRepr x ++ ", " ++ pyReprList xs

/-- Comma-separated `repr` of dict entries. -/
def pyReprObj : List (String × JVal) → String
  | [] => ""
  | [kv] => pyQuote kv.1 ++ ": " ++ pyRepr kv.2
  | kv :: kvs => pyQuote kv.1 ++ ": " ++ pyRepr kv.2 ++ ", " ++ pyReprObj kvs

end

/-- Python `str()` of a parsed JSON value: the string itself for
strings, `repr` otherwise. -/
def pyStr (v : JVal) : String :=
  match v with
  | .str s => s
  | v => pyRepr v

/-- The characters Python's `str.strip()` removes (ASCII whitespace). -/
def isPySpace (c : Char) : Bool :=
  c = ' ' || c = '\t' || c = '\n' || c = '\r' || c = Char.ofNat 11 || c = Char.ofNat 12

/-- Drop leading whitespace (left half of `str.strip()`). -/
def dropWSLeft (l : List Char) : List Char := l.dropWhile isPySpace

/-- Drop trailing whitespace (right half of `str.strip()`). -/
def dropWSRight (l : List Char) : List Char :=
  (l.reverse.dropWhile isPySpace).reverse

/-- Python `str.strip()` on a character list. -/
def pyStripL (l : List Char) : List Char := dropWSLeft (dropWSRight l)

/-- Python `str.strip()` with no argument. -/
def pyStrip (s : String) : String := String.mk (pyStripL s.data)

/-! ## A strict JSON parser modelling `json.loads`

`json.loads` either returns a value or raises `JSONDecodeError`; the
model returns `Option JVal`.  Recursion is fuelled; at least one
character is consumed every two recursive steps, so a fuel of
`2 * length + 4` is generous enough for every input. -/

/-- JSON inter-token whitespace. -/
def isJsonWS (c : Char) : Bool :=
  c = ' ' || c = '\t' || c = '\n' || c = '\r'

/-- Skip JSON whitespace. -/
def skipWS (l : List Char) : List Char := l.dropWhile isJsonWS

/-- Hex digit value, if any. -/
def hexVal? (c : Char) : Option Nat :=
  if '0' ≤ c ∧ c ≤ '9' then some (c.toNat - '0'.toNat)
  else if 'a' ≤ c ∧ c ≤ 'f' then some (c.toNat - 'a'.toNat + 10)
  else if 'A' ≤ c ∧ c ≤ 'F' then some (c.toNat - 'A'.toNat + 10)
  else none

/-- Parse the body of a JSON string after the opening quote; returns
the decoded characters and the input past the closing quote.  Strict
mode: unescaped control characters are rejected. -/
def parseStrBody (fuel : Nat) (l : List Char) : Option (List Char × List Char) :=
  match fuel, l with
  | 0, _ => none
  | _, [] => none
  | fuel + 1, c :: rest =>
    if c = dquoteChar then some ([], rest)
    else if c = bslashChar then
      match rest with
      | [] => none
      | e :: rest2 =>
        if e = dquoteChar ∨ e = bslashChar ∨ e = '/' then
          (parseStrBody fuel rest2).map (fun p => (e :: p.1, p.2))
        else if e = 'b' then
          (parseStrBody fuel rest2).map (fun p => (Char.ofNat 8 :: p.1, p.2))
        else if e = 'f' then
          (parseStrBody fuel rest2).map (fun p => (Char.ofNat 12 :: p.1, p.2))
        else if e = 'n' then
          (parseStrBody fuel rest2).map (fun p => ('\n' :: p.1, p.2))
        else if e = 'r' then
          (parseStrBody fuel rest2).map (fun p => ('\r' :: p.1, p.2))
        else if e = 't' then
          (parseStrBody fuel rest2).map (fun p => ('\t' :: p.1, p.2))
        else if e = 'u' then
          match rest2 with
          | h1 :: h2 :: h3 :: h4 :: rest3 =>
            match hexVal? h1, hexVal? h2, hexVal? h3, hexVal? h4 with
            | some a, some b, some c', some d =>
              (parseStrBody fuel rest3).map
                (fun p => (Char.ofNat (((a * 16 + b) * 16 + c') * 16 + d) :: p.1, p.2))
            | _, _, _, _ => none
          | _ => none
        else none
    else if c.toNat < 32 then none
    else (parseStrBody fuel rest).map (fun p => (c :: p.1, p.2))

/-- Decimal digits prefix and the rest. -/
def takeDigits (l : List Char) : List Char × List Char :=
  (l.takeWhile Char.isDigit, l.dropWhile Char.isDigit)

/-- Numeric value of a digit string. -/
def digitsToNat (ds : List Char) : Nat :=
  ds.foldl (fun acc c => acc * 10 + (c.toNat - '0'.toNat)) 0

/-- Parse a JSON number per the strict grammar
`-?(0|[1-9][0-9]*)(.[0-9]+)?([eE][+-]?[0-9]+)?`, as an exact rational. -/
def parseNum (l : List Char) : Option (ℚ × List Char) :=
  let (neg, l1) :=
    match l with
    | '-' :: rest => (true, rest)
    | _ => (false, l)
  match takeDigits l1 with
  | ([], _) => none
  | (d :: ds, rest1) =>
    if d = '0' ∧ ds ≠ [] then none
    else
      let intPart : ℚ := (digitsToNat (d :: ds) : ℚ)
      let fracRes : Option (ℚ × List Char) :=
        match rest1 with
        | '.' :: r =>
          match takeDigits r with
          | ([], _) => none
          | (fs, r2) => some ((digitsToNat fs : ℚ) / ((10 : ℚ) ^ fs.length), r2)
        | _ => some (0, rest1)
      match fracRes with
      | none => none
      | some (f, rest2) =>
        let exRes : Option (Int × List Char) :=
          match rest2 with
          | e :: r =>
            if e = 'e' ∨ e = 'E' then
              let signAndRest : Int × List Char :=
                match r with
                | '+' :: rr => (1, rr)
                | '-' :: rr => (-1, rr)
                | _ => (1, r)
              match takeDigits signAndRest.2 with
              | ([], _) => none
              | (es, r2) => some (signAndRest.1 * (digitsToNat es : Int), r2)
            else some (0, rest2)
          | [] => some (0, rest2)
        match exRes with
        | none => none
        | some (e, rest3) =>
          let mag : ℚ := (intPart + f) * (10 : ℚ) ^ (e : ℤ)
          some (if neg then -mag else mag, rest3)

/-- Insert a key into a Python dict under construction: a repeated key
keeps its original position but takes the latest value, as in CPython. -/
def insertKV (kvs : List (String × JVal)) (k : String) (v : JVal) :
    List (String × JVal) :=
  match kvs with
  | [] => [(k, v)]
  | (k', v') :: rest =>
    if k' = k then (k', v) :: rest else (k', v') :: insertKV rest k v

mutual

/-- Parse one JSON value (leading whitespace allowed). -/
def parseVal (fuel : Nat) (l : List Char) : Option (JVal × List Char) :=
  match fuel with
  | 0 => none
  | fuel + 1 =>
    match skipWS l with
    | [] => none
    | c :: rest =>
      if c = lbraceChar then parseObjBody fuel (skipWS rest) []
      else if c = '[' then parseArrBody fuel (skipWS rest) []
      else if c = dquoteChar then
        (parseStrBody fuel rest).map (fun p => (JVal.str (String.mk p.1), p.2))
      else if c = 't' then
        match rest with
        | 'r' :: 'u' :: 'e' :: r => some (JVal.bool true, r)
        | _ => none
      else if c = 'f' then
        match rest with
        | 'a' :: 'l' :: 's' :: 'e' :: r => some (JVal.bool false, r)
        | _ => none
      else if c = 'n' then
        match rest with
        | 'u' :: 'l' :: 'l' :: r => some (JVal.null, r)
        | _ => none
      else if c = '-' ∨ c.isDigit then
        (parseNum (c :: rest)).map (fun p => (JVal.num p.1, p.2))
      else none

/-- Parse array elements; `l` sits at a value position (whitespace
already skipped), `acc` holds earlier elements in order. -/
def parseArrBody (fuel : Nat) (l : List Char) (acc : List JVal) :
    Option (JVal × List Char) :=
  match fuel with
  | 0 => none
  | fuel + 1 =>
    match l with
    | ']' :: rest => if acc.isEmpty then some (JVal.arr [], rest) else none
    | _ =>
      match parseVal fuel l with
      | none => none
      | some (v, r1) =>
        match skipWS r1 with
        | ',' :: r2 => parseArrBody fuel (skipWS r2) (acc ++ [v])
        | ']' :: r2 => some (JVal.arr (acc ++ [v]), r2)
        | _ => none

/-- Parse object members; `l` sits at a key position (whitespace
already skipped), `acc` holds earlier members. -/
def parseObjBody (fuel : Nat) (l : List Char) (acc : List (String × JVal)) :
    Option (JVal × List Char) :=
  match fuel with
  | 0 => none
  | fuel + 1 =>
    match l with
    | [] => none
    | c :: rest =>
      if c = rbraceChar ∧ acc.isEmpty then some (JVal.obj [], rest)
      else if c = dquoteChar then
        match parseStrBody fuel rest with
        | none => none
        | some (key, r1) =>
          match skipWS r1 with
          | ':' :: r2 =>
            match parseVal fuel (skipWS r2) with
            | none => none
            | some (v, r3) =>
              match skipWS r3 with
              | ',' :: r4 => parseObjBody fuel (skipWS r4) (insertKV acc (String.mk key) v)
              | d :: r4 =>
                if d = rbraceChar then
                  some (JVal.obj (insertKV acc (String.mk key) v), r4)
                else none
              | [] => none
          | _ => none
      else none

end

/-- Model of `json.loads`: strict parse of the entire text; `none` models a
raised `JSONDecodeError`. -/
def jsonParse (s : String) : Option JVal :=
  let l := s.data
  match parseVal (2 * l.length + 4) l with
  | none => none
  | some (v, rest) => if skipWS rest = [] then some v else none

/-! ## Data model of the pipeline inputs (`profile`, `recent_posts`)

`data_handler.get_instagram_profile_data` always places these fields in
the records it returns; the pipeline reads them with `dict.get`, whose
missing/`None` outcomes are modelled with `Option`. -/

/-- One preprocessed post record (`likes`, `comments_count`, `caption`,
`is_video`); counts are Python integers, so ℤ. -/
structure Post where
  likes : Int
  comments_count : Int
  caption : Option String
  is_video : Bool

/-- The scraped profile record; every field is read with
`profile.get(...)`, so each is an `Option` (a missing key and an
explicit `None` both print as `None` in the prompt). -/
structure Profile where
  username : Option String
  followers : Option Int
  following : Option Int
  posts_count : Option Int
  biography : Option String
  external_url : Option String
  is_verified : Option Bool

/-- f-string rendering of an optional string. -/
def showOptStr : Option String → String
  | none => "None"
  | some s => s

/-- f-string rendering of an optional integer. -/
def showOptInt : Option Int → String
  | none => "None"
  | some n => toString n

/-- f-string rendering of an optional boolean (`True` / `False`). -/
def showOptBool : Option Bool → String
  | none => "None"
  | some b => if b then "True" else "False"

/-- Python `//` on integers: floor division, raising
`ZeroDivisionError` on a zero divisor. -/
def pyFloorDiv (a b : Int) : Except String Int :=
  if b = 0 then .error "integer division or modulo by zero"
  else .ok (a.fdiv b)

/-- Python `/` on integers: exact true division (the float result is
modelled as a rational), raising `ZeroDivisionError` on zero. -/
def pyTrueDiv (a b : Int) : Except String ℚ :=
  if b = 0 then .error "division by zero"
  else .ok ((a : ℚ) / (b : ℚ))

/-- The three aggregates `_aggregate_post_stats` returns. -/
structure AggStats where
  avgLikes : Int
  avgComments : Int
  videoFrac : ℚ

/-- Embedding of `_aggregate_post_stats` (src/ai_agents.py:9-20): zeros on an empty
post list, otherwise floor-divided averages and the video ratio; each
division is modelled fallibly so that a division by zero would surface
as an `Except.error`. -/
def aggregatePostStats (posts : List Post) : Except String AggStats :=
  if posts.isEmpty then .ok ⟨0, 0, 0⟩
  else
    let totalLikes : Int := (posts.map Post.likes).sum
    let totalComments : Int := (posts.map Post.comments_count).sum
    let videoCount : Int := (posts.countP Post.is_video : Nat)
    let n : Int := (posts.length : Nat)
    do
      let al ← pyFloorDiv totalLikes n
      let ac ← pyFloorDiv totalComments n
      let vf ← if n ≠ 0 then pyTrueDiv videoCount n else .ok 0
      .ok ⟨al, ac, vf⟩

/-- Python `str.replace` for a single-character pattern. -/
def replaceChar (pat rep : Char) (s : String) : String :=
  String.mk (s.data.map (fun c => if c = pat then rep else c))

/-- Embedding of `(p.get('caption') or '').replace('<',' ').replace('>',' ')`:
the caption (empty for `None`) with both angle brackets blanked. -/
def sanitizeCaption (caption : Option String) : String :=
  replaceChar '>' ' ' (replaceChar '<' ' ' (caption.getD ""))

/-- One `<post><caption_preview>...</caption_preview></post>` fragment
(src/ai_agents.py:25-28). -/
def postFragment (p : Post) : String :=
  "<post><caption_preview>" ++ sanitizeCaption p.caption
    ++ "</caption_preview></post>"

/-- Formatting `f"{x:.2f}"` applied to the video ratio.  Ties are modelled
half-up; CPython formats the nearest binary float with half-even ties,
a difference no claim depends on. -/
def fmt2 (q : ℚ) : String :=
  let c : Int := round (q * 100)
  let sign := if c < 0 then "-" else ""
  let a := c.natAbs
  let f := a % 100
  sign ++ toString (a / 100) ++ "." ++ (if f < 10 then "0" else "") ++ toString f

/-- Everything of the prompt f-string before the `{post_samples}`
interpolation (src/ai_agents.py:29-50). -/
def promptIntro (profile : Profile) (posts : List Post) (stats : AggStats) : String :=
  "\nYou are an expert social media analyst. Your task is to analyze the provided Instagram profile data and generate a structured JSON output. Do not include any introductory text, markdown formatting, or explanations. Return only a valid JSON object.\n\n<profile_data>\nUsername: "
    ++ showOptStr profile.username
    ++ "\nFollowers: " ++ showOptInt profile.followers
    ++ "\nFollowing: " ++ showOptInt profile.following
    ++ "\nPosts Count: " ++ showOptInt profile.posts_count
    ++ "\nBio: " ++ showOptStr profile.biography
    ++ "\nExternal URL: " ++ showOptStr profile.external_url
    ++ "\nIs Verified: " ++ showOptBool profile.is_verified
    ++ "\n</profile_data>\n\n<recent_posts_summary>\nTotal posts analyzed: "
    ++ toString posts.length
    ++ "\nAverage Likes: " ++ toString stats.avgLikes
    ++ "\nAverage Comments: " ++ toString stats.avgComments
    ++ "\nVideo Ratio: " ++ fmt2 stats.videoFrac
    ++ "\n</recent_posts_summary>\n\n<post_samples>\n"

/-- Everything of the prompt f-string after the `{post_samples}`
interpolation (src/ai_agents.py:51-65); the `{{`/`}}` escapes of the
source render as literal braces. -/
def promptTail : String :=
  "\n</post_samples>\n\nBased on the provided data, return a single JSON object with this schema:\n\x7b\n  \"summary\": \"A concise 4-5 sentence overview of the profile"
    ++ String.singleton squoteChar
    ++ "s purpose, content style, and audience.\",\n  \"insights\": \x7b\n    \"content_strategy\": \"Analyze primary content themes, formats (photo/video), and overall strategy. Estimate posting frequency if possible.\",\n    \"audience_engagement\": \"Evaluate audience interaction based on likes, comments, and the nature of captions.\",\n    \"brand_analysis\": \"Assess brand identity clarity (personal, business, influencer) and niche.\",\n    \"growth_indicators\": \"Identify potential growth drivers or blockers (CTAs, follower/following ratio, content quality).\",\n    \"content_performance\": \"Comment on recent post performance patterns and standout content types.\"\n  \x7d\n\x7d\nEnsure the output is strictly valid JSON with double quotes and no trailing commas.\n"

/-- The fully assembled prompt for given aggregates. -/
def promptOfStats (profile : Profile) (posts : List Post) (stats : AggStats) : String :=
  promptIntro profile posts stats
    ++ String.join (posts.map postFragment)
    ++ promptTail

/-- Embedding of `create_structured_prompt` (src/ai_agents.py:22-66): aggregate the
post statistics, then render the deterministic prompt text. -/
def createStructuredPrompt (profile : Profile) (posts : List Post) :
    Except String String :=
  match aggregatePostStats posts with
  | .error e => .error e
  | .ok stats => .ok (promptOfStats profile posts stats)

/-- The three-backtick fence marker, as characters. -/
def fenceL : List Char := "```".data

/-- Embedding of `_strip_markdown_fences` (src/ai_agents.py:68-80) on a char list:
strip, drop an opening ``` fence with its language-tag line (or just
the three backticks when the text is a single line), drop a trailing
``` fence, strip again. -/
def stripFencesL (l : List Char) : List Char :=
  let t0 := pyStripL l
  let t1 :=
    if fenceL.isPrefixOf t0 then
      match t0.findIdx? (fun c => c = '\n') with
      | some i => t0.drop (i + 1)
      | none => t0.drop 3
    else t0
  let t2 := if fenceL.isSuffixOf t1 then t1.take (t1.length - 3) else t1
  pyStripL t2

/-- Embedding of `_strip_markdown_fences` on strings. -/
def stripMarkdownFences (text : String) : String :=
  String.mk (stripFencesL text.data)

/-- Python `str.find` for one character (index, or `none` for -1). -/
def findCharIdx? (c : Char) (l : List Char) : Option Nat :=
  l.findIdx? (fun x => x = c)

/-- Python `str.rfind` for one character. -/
def rfindCharIdx? (c : Char) (l : List Char) : Option Nat :=
  match l.reverse.findIdx? (fun x => x = c) with
  | some i => some (l.length - 1 - i)
  | none => none

/-- Python slice `s[a:b]` by code points (for `0 ≤ a ≤ b ≤ len`). -/
def pySlice (s : String) (a b : Nat) : String :=
  String.mk ((s.data.drop a).take (b - a))

/-- The brace-extraction retry (src/ai_agents.py:141-150): find the
first `{` and the last `}`; when both exist in that order, parse the
inclusive slice between them; `none` models every path that leaves no
salvaged value (no pair, wrong order, or a failed inner parse). -/
def braceExtract (cleaned : String) : Option JVal :=
  match findCharIdx? lbraceChar cleaned.data,
        rfindCharIdx? rbraceChar cleaned.data with
  | some s, some e => if s < e then jsonParse (pySlice cleaned s (e + 1)) else none
  | _, _ => none

/-- The whole sanitation of a cleaned response text
(src/ai_agents.py:138-150): strict parse, then brace-extraction
fallback, then the empty dict. -/
def parseWithFallback (cleaned : String) : JVal :=
  match jsonParse cleaned with
  | some v => v
  | none => (braceExtract cleaned).getD (JVal.obj [])

/-- The fixed fallback dict `_validate_and_normalize` returns for a
non-dict value (src/ai_agents.py:106-116). -/
def fallbackNormalized : JVal :=
  .obj [("summary", .str "Analysis completed but response format was unexpected."),
        ("insights", .obj
          [("content_strategy", .str ""),
           ("audience_engagement", .str ""),
           ("brand_analysis", .str ""),
           ("growth_indicators", .str ""),
           ("content_performance", .str "")])]

/-- Embedding of `_validate_and_normalize` (src/ai_agents.py:82-117): on a dict,
read `summary` (default `""`) and `insights` (default `{}`), coerce a
non-string summary with `str()`, replace a non-dict `insights` with
`{}`, and rebuild exactly the five insight fields, each `str()`-coerced
(the inner `def s(v)` is `pyStr`); on anything else return the fixed
fallback.  `normalizeInsights` is the `insights_out` dict of
src/ai_agents.py:96-102. -/
def normalizeInsights (insights1 : JVal) : JVal :=
  .obj [("content_strategy", .str (pyStr ((insights1.get? "content_strategy").getD (.str "")))),
        ("audience_engagement", .str (pyStr ((insights1.get? "audience_engagement").getD (.str "")))),
        ("brand_analysis", .str (pyStr ((insights1.get? "brand_analysis").getD (.str "")))),
        ("growth_indicators", .str (pyStr ((insights1.get? "growth_indicators").getD (.str "")))),
        ("content_performance", .str (pyStr ((insights1.get? "content_performance").getD (.str ""))))]

/-- Embedding of `_validate_and_normalize`, continued: dispatch on `isinstance(parsed, dict)`. -/
def validateAndNormalize (parsed : JVal) : JVal :=
  match parsed with
  | .obj kvs =>
    let summary0 := (List.lookup "summary" kvs).getD (.str "")
    let insights0 := (List.lookup "insights" kvs).getD (.obj [])
    let summary1 : JVal := if summary0.isStr then summary0 else .str (pyStr summary0)
    let insights1 : JVal := if insights0.isObj then insights0 else .obj []
    .obj [("summary", summary1), ("insights", normalizeInsights insights1)]
  | _ => fallbackNormalized

/-- The scrape envelope as the orchestrator consumes it: the `success`
flag read with `profile_data.get("success")` (`none` models a missing
key), and the `profile` / `recent_posts` records that
`data_handler.get_instagram_profile_data` always stores next to
`success=True`. -/
structure Envelope where
  success : Option Bool
  profile : Profile
  recent_posts : List Post

/-- Outcome of one `model.generate_content(prompt)` call: either a
raised exception carrying `str(e)`, or a response whose `text`
attribute is `none` when absent or `None`. -/
inductive GenOutcome where
  | raises (msg : String)
  | returns (text : Option String)

/-- The failure dict built at src/ai_agents.py:124-129 and 160-165. -/
def failureResult (err : String) : JVal :=
  .obj [("success", .bool false), ("error", .str err),
        ("summary", .str ""), ("insights", .obj [])]

/-- Embedding of `analyze_instagram_profile` (src/ai_agents.py:119-165), paired
with the list of prompts actually sent to the generation service so
that "no generation call is made" is statable.  `normalized["summary"]`
and `normalized["insights"]` are total lookups here (`getD .null`);
the normalizer always populates both keys, so the `.null` default is
dead code (proved below). -/
def analyzeRun (gen : String → GenOutcome) (env : Envelope) : JVal × List String :=
  if env.success ≠ some true then
    (failureResult "Invalid profile data provided", [])
  else
    match createStructuredPrompt env.profile env.recent_posts with
    | .error e => (failureResult ("AI analysis failed: " ++ e), [])
    | .ok prompt =>
      match gen prompt with
      | .raises msg => (failureResult ("AI analysis failed: " ++ msg), [prompt])
      | .returns t =>
        let text := t.getD ""
        let cleaned := stripMarkdownFences text
        let parsed := parseWithFallback cleaned
        let normalized := validateAndNormalize parsed
        (JVal.obj
          [("success", .bool true), ("error", .null),
           ("summary", (normalized.get? "summary").getD .null),
           ("insights", (normalized.get? "insights").getD .null),
           ("raw_response", .str text)], [prompt])

/-- The pipeline result dict. -/
def analyzeInstagramProfile (gen : String → GenOutcome) (env : Envelope) : JVal :=
  (analyzeRun gen env).1

/-- The prompts sent to the generation service during one invocation. -/
def genCallLog (gen : String → GenOutcome) (env : Envelope) : List String :=
  (analyzeRun gen env).2

/-! ## Helper lemmas -/

theorem strMk_data (l : List Char) : (String.mk l).data = l := rfl

/-- A minimal profile record for concrete instantiations. -/
def demoProfile : Profile := ⟨none, none, none, none, none, none, none⟩

/-- Three concrete posts with likes 10/20/30, comments 1/2/4, one video. -/
def demoPosts : List Post :=
  [⟨10, 1, none, false⟩, ⟨20, 2, some "hi", true⟩, ⟨30, 4, some "yo", false⟩]

/-- On a non-empty list the aggregation never errors and returns the
floor-divided averages and the exact video fraction. -/
theorem aggregatePostStats_cons (p : Post) (ps : List Post) :
    aggregatePostStats (p :: ps) =
      .ok ⟨(((p :: ps).map Post.likes).sum).fdiv (((p :: ps).length : Nat) : Int),
           (((p :: ps).map Post.comments_count).sum).fdiv (((p :: ps).length : Nat) : Int),
           ((((p :: ps).countP Post.is_video : Nat) : Int) : ℚ)
             / ((((p :: ps).length : Nat) : Int) : ℚ)⟩ := by
  have hn : ¬((ps.length : Int) + 1 = 0) := by omega
  simp [aggregatePostStats, pyFloorDiv, pyTrueDiv, hn, Bind.bind, Except.bind]

/-- Totality: `_aggregate_post_stats` never reaches its division-error branch. -/
theorem aggregatePostStats_ok (posts : List Post) :
    ∃ st, aggregatePostStats posts = .ok st := by
  cases posts with
  | nil => exact ⟨⟨0, 0, 0⟩, rfl⟩
  | cons p ps => exact ⟨_, aggregatePostStats_cons p ps⟩

/-- Totality: `create_structured_prompt` never raises, since its only fallible step is
the (guarded) aggregation. -/
theorem createStructuredPrompt_ok (profile : Profile) (posts : List Post) :
    ∃ s, createStructuredPrompt profile posts = .ok s := by
  obtain ⟨st, hst⟩ := aggregatePostStats_ok posts
  exact ⟨promptOfStats profile posts st, by simp [createStructuredPrompt, hst]⟩

/-- The canonical insights dict: exactly the five fields, all strings. -/
def insightsShape (v : JVal) : Prop :=
  ∃ a b c d e, v = JVal.obj
    [("content_strategy", .str a), ("audience_engagement", .str b),
     ("brand_analysis", .str c), ("growth_indicators", .str d),
     ("content_performance", .str e)]

/-- The canonical normalized dict: a string summary plus a canonical
insights dict, and nothing else. -/
def normalizedShape (v : JVal) : Prop :=
  ∃ s ins, v = JVal.obj [("summary", .str s), ("insights", ins)] ∧ insightsShape ins

/-- The summary coercion (`str()` on non-strings) always lands on a
string value. -/
theorem coerced_isStr (v : JVal) :
    ∃ s, (if v.isStr then v else JVal.str (pyStr v)) = JVal.str s := by
  cases v <;> exact ⟨_, rfl⟩

theorem fallbackNormalized_shape : normalizedShape fallbackNormalized :=
  ⟨"Analysis completed but response format was unexpected.", _, rfl,
   "", "", "", "", "", rfl⟩

/-- Normalization: `_validate_and_normalize` always produces the canonical shape. -/
theorem validateAndNormalize_shape (parsed : JVal) :
    normalizedShape (validateAndNormalize parsed) := by
  cases parsed with
  | obj kvs =>
    obtain ⟨s, hs⟩ := coerced_isStr ((List.lookup "summary" kvs).getD (.str ""))
    refine ⟨s, normalizeInsights (if ((List.lookup "insights" kvs).getD (.obj [])).isObj
        then (List.lookup "insights" kvs).getD (.obj []) else .obj []), ?_, ?_⟩
    · simp only [validateAndNormalize]
      rw [hs]
    · exact ⟨_, _, _, _, _, rfl⟩
  | null => exact fallbackNormalized_shape
  | bool b => exact fallbackNormalized_shape
  | num q => exact fallbackNormalized_shape
  | str s => exact fallbackNormalized_shape
  | arr xs => exact fallbackNormalized_shape

theorem validateAndNormalize_get_summary (parsed : JVal) :
    ∃ s, (validateAndNormalize parsed).get? "summary" = some (JVal.str s) := by
  obtain ⟨s, ins, heq, _⟩ := validateAndNormalize_shape parsed
  exact ⟨s, by rw [heq]; rfl⟩

theorem validateAndNormalize_get_insights (parsed : JVal) :
    ∃ ins, (validateAndNormalize parsed).get? "insights" = some ins
      ∧ insightsShape ins := by
  obtain ⟨s, ins, heq, hins⟩ := validateAndNormalize_shape parsed
  exact ⟨ins, by rw [heq]; rfl, hins⟩

/-! ## Claims about aggregation and the prompt (C4, C5, C6) -/

/-- C4: for every non-empty post list with non-negative like and
comment counts, `_aggregate_post_stats` returns exactly
`avg_likes = floor(sum likes / n)` and
`avg_comments = floor(sum comments / n)` (integer floor division), and
`video_ratio` is the exact fraction of video posts, a rational in
[0,1]. -/
theorem aggregate_stats_exact (posts : List Post)
    (hne : posts ≠ [])
    (hl : ∀ p ∈ posts, 0 ≤ p.likes)
    (hc : ∀ p ∈ posts, 0 ≤ p.comments_count) :
    ∃ st, aggregatePostStats posts = .ok st
      ∧ st.avgLikes = ⌊((posts.map Post.likes).sum : ℚ) / (posts.length : ℚ)⌋
      ∧ st.avgComments = ⌊((posts.map Post.comments_count).sum : ℚ) / (posts.length : ℚ)⌋
      ∧ st.videoFrac = (posts.countP Post.is_video : ℚ) / (posts.length : ℚ)
      ∧ 0 ≤ st.videoFrac ∧ st.videoFrac ≤ 1 := by
  obtain ⟨p, ps, rfl⟩ := List.exists_cons_of_ne_nil hne
  have hlen : (0 : ℤ) ≤ ((p :: ps).length : Int) := Int.natCast_nonneg _
  have hpos : 0 < (p :: ps).length := Nat.succ_pos ps.length
  have hlenq : (0 : ℚ) < ((((p :: ps).length : Nat) : Int) : ℚ) := by
    exact_mod_cast hpos
  refine ⟨_, aggregatePostStats_cons p ps, ?_, ?_, ?_, ?_, ?_⟩ <;> dsimp only
  · rw [Int.fdiv_eq_ediv _ hlen]
    exact (Rat.floor_intCast_div_natCast _ _).symm
  · rw [Int.fdiv_eq_ediv _ hlen]
    exact (Rat.floor_intCast_div_natCast _ _).symm
  · push_cast
    ring
  · positivity
  · rw [div_le_one hlenq]
    exact_mod_cast List.countP_le_length Post.is_video

/-- Witness for C4 at the three concrete posts with likes 10/20/30. -/
theorem aggregate_stats_exact_witness :
    (demoPosts ≠ [] ∧ (∀ p ∈ demoPosts, 0 ≤ p.likes)
      ∧ (∀ p ∈ demoPosts, 0 ≤ p.comments_count))
    ∧ ∃ st, aggregatePostStats demoPosts = .ok st
      ∧ st.avgLikes = ⌊((demoPosts.map Post.likes).sum : ℚ) / (demoPosts.length : ℚ)⌋
      ∧ st.avgComments = ⌊((demoPosts.map Post.comments_count).sum : ℚ) / (demoPosts.length : ℚ)⌋
      ∧ st.videoFrac = (demoPosts.countP Post.is_video : ℚ) / (demoPosts.length : ℚ)
      ∧ 0 ≤ st.videoFrac ∧ st.videoFrac ≤ 1 :=
  ⟨⟨by simp [demoPosts], by decide, by decide⟩,
   aggregate_stats_exact demoPosts (by simp [demoPosts]) (by decide) (by decide)⟩

/-- C5: the empty post list yields all-zero aggregates, and no
invocation of the aggregation or of prompt construction can reach a
division-by-zero error (the `Except.error` branch of the embedded
divisions is unreachable). -/
theorem aggregate_empty_and_no_div_error :
    aggregatePostStats [] = .ok ⟨0, 0, 0⟩
    ∧ (∀ posts : List Post, ∃ st, aggregatePostStats posts = .ok st)
    ∧ (∀ (profile : Profile) (posts : List Post),
        ∃ s, createStructuredPrompt profile posts = .ok s) :=
  ⟨rfl, aggregatePostStats_ok, createStructuredPrompt_ok⟩

/-- Caption sanitisation leaves no angle bracket, and equals a single
pointwise replacement of `<` and `>` by spaces. -/
theorem sanitizeCaption_no_angle (c : Option String) :
    '<' ∉ (sanitizeCaption c).data ∧ '>' ∉ (sanitizeCaption c).data
    ∧ (sanitizeCaption c).data =
        (c.getD "").data.map (fun x => if x = '<' ∨ x = '>' then ' ' else x) := by
  refine ⟨?_, ?_, ?_⟩
  · intro hmem
    simp only [sanitizeCaption, replaceChar, strMk_data, List.map_map, List.mem_map,
      Function.comp] at hmem
    obtain ⟨a, -, ha⟩ := hmem
    revert ha
    split_ifs <;> simp_all
  · intro hmem
    simp only [sanitizeCaption, replaceChar, strMk_data, List.map_map, List.mem_map,
      Function.comp] at hmem
    obtain ⟨a, -, ha⟩ := hmem
    revert ha
    split_ifs <;> simp_all
  · simp only [sanitizeCaption, replaceChar, strMk_data, List.map_map]
    refine List.map_congr_left ?_
    intro a _
    by_cases h1 : a = '<' <;> by_cases h2 : a = '>' <;> simp [Function.comp, h1, h2]

/-- C6: the prompt splits as intro ++ caption fragments ++ tail with
exactly one fragment per input post in input order, and every
caption-derived character stream is free of `<` and `>` because both
are replaced by spaces before serialisation. -/
theorem prompt_fragment_discipline (profile : Profile) (posts : List Post) :
    (∃ stats, aggregatePostStats posts = .ok stats
      ∧ createStructuredPrompt profile posts =
          .ok (promptIntro profile posts stats
                ++ String.join (posts.map postFragment) ++ promptTail))
    ∧ (posts.map postFragment).length = posts.length
    ∧ (∀ p ∈ posts,
        postFragment p = "<post><caption_preview>" ++ sanitizeCaption p.caption
            ++ "</caption_preview></post>"
        ∧ '<' ∉ (sanitizeCaption p.caption).data
        ∧ '>' ∉ (sanitizeCaption p.caption).data
        ∧ (sanitizeCaption p.caption).data =
            (p.caption.getD "").data.map (fun x => if x = '<' ∨ x = '>' then ' ' else x)) := by
  refine ⟨?_, by simp, ?_⟩
  · obtain ⟨st, hst⟩ := aggregatePostStats_ok posts
    exact ⟨st, hst, by simp [createStructuredPrompt, hst, promptOfStats]⟩
  · intro p _
    exact ⟨rfl, sanitizeCaption_no_angle p.caption⟩

/-- Witness for C6: one post whose caption is `a <b> c`. -/
theorem prompt_fragment_discipline_witness :
    postFragment ⟨10, 1, some "a <b> c", false⟩ =
        "<post><caption_preview>" ++ sanitizeCaption (some "a <b> c")
          ++ "</caption_preview></post>"
      ∧ '<' ∉ (sanitizeCaption (some "a <b> c")).data
      ∧ '>' ∉ (sanitizeCaption (some "a <b> c")).data
      ∧ (sanitizeCaption (some "a <b> c")).data =
          ((some "a <b> c" : Option String).getD "").data.map
            (fun x => if x = '<' ∨ x = '>' then ' ' else x) :=
  (prompt_fragment_discipline demoProfile [⟨10, 1, some "a <b> c", false⟩]).2.2
    ⟨10, 1, some "a <b> c", false⟩ (by simp)

/-! ## Fence-stripping lemmas (for C3) -/

theorem dropWhile_eq_self_of_head {p : Char → Bool} (l : List Char)
    (h : ∀ c, l.head? = some c → p c = false) : l.dropWhile p = l := by
  cases l with
  | nil => rfl
  | cons a t =>
    rw [List.dropWhile_cons, h a rfl]
    simp

theorem head?_append_ne_nil {α} (l1 l2 : List α) (h : l1 ≠ []) :
    (l1 ++ l2).head? = l1.head? := by
  cases l1 with
  | nil => exact absurd rfl h
  | cons a t => rfl

theorem isPrefixOf_append_self {α} [BEq α] [LawfulBEq α] (l r : List α) :
    l.isPrefixOf (l ++ r) = true := by
  induction l with
  | nil => simp [List.isPrefixOf]
  | cons a t ih => simp [List.isPrefixOf, ih]

theorem dropWSRight_append_fence (l : List Char) :
    dropWSRight (l ++ fenceL) = l ++ fenceL := by
  unfold dropWSRight
  rw [List.reverse_append, dropWhile_eq_self_of_head, ← List.reverse_append,
    List.reverse_reverse]
  intro c h
  rw [head?_append_ne_nil _ _ (by decide),
    (by decide : fenceL.reverse.head? = some (Char.ofNat 96))] at h
  obtain rfl := Option.some.inj h
  decide

theorem dropWSLeft_fence_append (l : List Char) :
    dropWSLeft (fenceL ++ l) = fenceL ++ l := by
  unfold dropWSLeft
  apply dropWhile_eq_self_of_head
  intro c h
  rw [head?_append_ne_nil _ _ (by decide),
    (by decide : fenceL.head? = some (Char.ofNat 96))] at h
  obtain rfl := Option.some.inj h
  decide

theorem dropWSRight_append_ws (l : List Char) (c : Char) (h : isPySpace c = true) :
    dropWSRight (l ++ [c]) = dropWSRight l := by
  unfold dropWSRight
  rw [List.reverse_append]
  simp [List.dropWhile_cons, h]

theorem pyStripL_fence_wrapped (m : List Char) :
    pyStripL ((fenceL ++ m) ++ fenceL) = (fenceL ++ m) ++ fenceL := by
  unfold pyStripL
  rw [dropWSRight_append_fence, List.append_assoc, dropWSLeft_fence_append,
    ← List.append_assoc]

theorem findIdx?_first_hit {p : Char → Bool} :
    ∀ (pre : List Char) (suf : List Char) (c : Char) (i : Nat),
      (∀ x ∈ pre, p x = false) → p c = true →
      (pre ++ c :: suf).findIdx? p i = some (i + pre.length) := by
  intro pre
  induction pre with
  | nil =>
    intro suf c i h hp
    simp [List.findIdx?_cons, hp]
  | cons a t ih =>
    intro suf c i h hp
    rw [List.cons_append, List.findIdx?_cons, h a (List.mem_cons_self a t)]
    simp only [Bool.false_eq_true, if_false]
    rw [ih suf c (i + 1) (fun x hx => h x (List.mem_cons_of_mem a hx)) hp]
    congr 1
    simp [List.length_cons]
    omega

theorem isSuffixOf_append_fence (l : List Char) :
    fenceL.isSuffixOf (l ++ fenceL) = true := by
  unfold List.isSuffixOf
  rw [List.reverse_append]
  exact isPrefixOf_append_self _ _

/-- The fenced-input behaviour of `_strip_markdown_fences`: an opening
fence with a language tag on its own line and a closing fence are both
removed, leaving the stripped body. -/
theorem stripFences_fenced (lang body : String) (hl : '\n' ∉ lang.data) :
    stripMarkdownFences ("```" ++ lang ++ "\n" ++ body ++ "\n```") = pyStrip body := by
  have hn2 : "\n```".data = '\n' :: fenceL := rfl
  have hn1 : "\n".data = ['\n'] := rfl
  have hdata : ("```" ++ lang ++ "\n" ++ body ++ "\n```").data
      = (fenceL ++ lang.data) ++ '\n' :: (body.data ++ '\n' :: fenceL) := by
    simp [String.data_append, fenceL, hn1, hn2]
  have h0 : pyStripL ((fenceL ++ lang.data) ++ '\n' :: (body.data ++ '\n' :: fenceL))
      = (fenceL ++ lang.data) ++ '\n' :: (body.data ++ '\n' :: fenceL) := by
    have hform : (fenceL ++ lang.data) ++ '\n' :: (body.data ++ '\n' :: fenceL)
        = (fenceL ++ (lang.data ++ '\n' :: (body.data ++ ['\n']))) ++ fenceL := by
      simp
    rw [hform, pyStripL_fence_wrapped]
  have h1 : fenceL.isPrefixOf
      ((fenceL ++ lang.data) ++ '\n' :: (body.data ++ '\n' :: fenceL)) = true := by
    rw [List.append_assoc]
    exact isPrefixOf_append_self _ _
  have h2 : ((fenceL ++ lang.data) ++ '\n' :: (body.data ++ '\n' :: fenceL)).findIdx?
      (fun c => c = '\n') = some ((fenceL ++ lang.data).length) := by
    have hpre : ∀ x ∈ fenceL ++ lang.data, (decide (x = '\n')) = false := by
      intro x hx
      rcases List.mem_append.mp hx with hxf | hxl
      · exact (by decide : ∀ y ∈ fenceL, (decide (y = '\n')) = false) x hxf
      · have hxn : x ≠ '\n' := fun h => hl (h ▸ hxl)
        simp [hxn]
    have := findIdx?_first_hit (fenceL ++ lang.data) (body.data ++ '\n' :: fenceL)
      '\n' 0 hpre (by decide)
    simpa using this
  have h3 : ((fenceL ++ lang.data) ++ '\n' :: (body.data ++ '\n' :: fenceL)).drop
      ((fenceL ++ lang.data).length + 1) = body.data ++ '\n' :: fenceL := by
    have hform : (fenceL ++ lang.data) ++ '\n' :: (body.data ++ '\n' :: fenceL)
        = ((fenceL ++ lang.data) ++ ['\n']) ++ (body.data ++ '\n' :: fenceL) := by
      simp
    have hlen : (fenceL ++ lang.data).length + 1
        = ((fenceL ++ lang.data) ++ ['\n']).length := by
      simp
      omega
    rw [hform, hlen, List.drop_left]
  have h4 : fenceL.isSuffixOf (body.data ++ '\n' :: fenceL) = true := by
    have hform : body.data ++ '\n' :: fenceL = (body.data ++ ['\n']) ++ fenceL := by
      simp
    rw [hform]
    exact isSuffixOf_append_fence _
  have h5 : (body.data ++ '\n' :: fenceL).take ((body.data ++ '\n' :: fenceL).length - 3)
      = body.data ++ ['\n'] := by
    have hform : body.data ++ '\n' :: fenceL = (body.data ++ ['\n']) ++ fenceL := by
      simp
    have hfl : fenceL.length = 3 := rfl
    have hlen : ((body.data ++ ['\n']) ++ fenceL).length - 3
        = (body.data ++ ['\n']).length := by
      simp [List.length_append, hfl]
    rw [hform, hlen, List.take_left]
  have h6 : pyStripL (body.data ++ ['\n']) = pyStripL body.data := by
    unfold pyStripL
    rw [dropWSRight_append_ws _ _ (by decide)]
  show String.mk (stripFencesL _) = pyStrip body
  rw [show stripFencesL ("```" ++ lang ++ "\n" ++ body ++ "\n```").data
      = pyStripL body.data from ?_]
  · rfl
  · simp only [stripFencesL]
    rw [hdata, h0, h1]
    simp only [if_true]
    rw [h2]
    simp only []
    rw [h3, h4]
    simp only [if_true]
    rw [h5, h6]

/-- C3: for every raw response text, the sanitation step is total and
lands in exactly one of three cases — strict parse success, successful
brace-extraction fallback, or the empty-object fallback — so no parse
failure ever escapes; moreover a text wrapped in an opening fence (with
a language tag on the same line) and a closing fence is reduced to its
stripped body before parsing. -/
theorem sanitation_never_raises (text lang body : String) (hl : '\n' ∉ lang.data) :
    ((∃ v, jsonParse (stripMarkdownFences text) = some v
        ∧ parseWithFallback (stripMarkdownFences text) = v)
      ∨ (jsonParse (stripMarkdownFences text) = none
        ∧ ∃ v, braceExtract (stripMarkdownFences text) = some v
          ∧ parseWithFallback (stripMarkdownFences text) = v)
      ∨ (jsonParse (stripMarkdownFences text) = none
        ∧ braceExtract (stripMarkdownFences text) = none
        ∧ parseWithFallback (stripMarkdownFences text) = JVal.obj []))
    ∧ stripMarkdownFences ("```" ++ lang ++ "\n" ++ body ++ "\n```") = pyStrip body := by
  refine ⟨?_, stripFences_fenced lang body hl⟩
  cases hj : jsonParse (stripMarkdownFences text) with
  | some v => exact Or.inl ⟨v, rfl, by simp [parseWithFallback, hj]⟩
  | none =>
    cases hb : braceExtract (stripMarkdownFences text) with
    | some v => exact Or.inr (Or.inl ⟨rfl, v, rfl, by simp [parseWithFallback, hj, hb]⟩)
    | none => exact Or.inr (Or.inr ⟨rfl, rfl, by simp [parseWithFallback, hj, hb]⟩)

/-- Witness for C3: the spec's own example text `no braces here`
(empty-object fallback) and the fenced wrapper around body `x`. -/
theorem sanitation_never_raises_witness :
    ('\n' ∉ "json".data)
    ∧ (((∃ v, jsonParse (stripMarkdownFences "no braces here") = some v
          ∧ parseWithFallback (stripMarkdownFences "no braces here") = v)
        ∨ (jsonParse (stripMarkdownFences "no braces here") = none
          ∧ ∃ v, braceExtract (stripMarkdownFences "no braces here") = some v
            ∧ parseWithFallback (stripMarkdownFences "no braces here") = v)
        ∨ (jsonParse (stripMarkdownFences "no braces here") = none
          ∧ braceExtract (stripMarkdownFences "no braces here") = none
          ∧ parseWithFallback (stripMarkdownFences "no braces here") = JVal.obj []))
      ∧ stripMarkdownFences ("```" ++ "json" ++ "\n" ++ "x" ++ "\n```") = pyStrip "x") :=
  ⟨by decide, sanitation_never_raises "no braces here" "json" "x" (by decide)⟩

/-! ## Orchestrator branch lemmas -/

theorem analyzeRun_invalid (gen : String → GenOutcome) (env : Envelope)
    (h : env.success ≠ some true) :
    analyzeRun gen env = (failureResult "Invalid profile data provided", []) := by
  unfold analyzeRun
  rw [if_pos h]

theorem analyzeRun_raises (gen : String → GenOutcome) (env : Envelope)
    (prompt msg : String)
    (hs : env.success = some true)
    (hp : createStructuredPrompt env.profile env.recent_posts = .ok prompt)
    (hg : gen prompt = .raises msg) :
    analyzeRun gen env = (failureResult ("AI analysis failed: " ++ msg), [prompt]) := by
  simp [analyzeRun, hs, hp, hg]

theorem analyzeRun_returns (gen : String → GenOutcome) (env : Envelope)
    (prompt : String) (t : Option String)
    (hs : env.success = some true)
    (hp : createStructuredPrompt env.profile env.recent_posts = .ok prompt)
    (hg : gen prompt = .returns t) :
    analyzeRun gen env =
      (JVal.obj
        [("success", .bool true), ("error", .null),
         ("summary",
           ((validateAndNormalize (parseWithFallback
              (stripMarkdownFences (t.getD "")))).get? "summary").getD .null),
         ("insights",
           ((validateAndNormalize (parseWithFallback
              (stripMarkdownFences (t.getD "")))).get? "insights").getD .null),
         ("raw_response", .str (t.getD ""))], [prompt]) := by
  simp [analyzeRun, hs, hp, hg]

/-- A successful envelope with no posts, for concrete instantiations. -/
def demoEnv : Envelope := ⟨some true, demoProfile, []⟩

/-- An envelope whose success flag is absent. -/
def demoEnvInvalid : Envelope := ⟨none, demoProfile, []⟩

/-- A generation double that always returns the unparseable text
`hello`. -/
def genReturnsHello : String → GenOutcome := fun _ => .returns (some "hello")

/-- A generation double that always raises. -/
def genRaisesQuota : String → GenOutcome := fun _ => .raises "quota exceeded"

/-! ## Claims about the orchestrator (C1, C7, C8, C9, C10, C2) -/

/-- C1: a successful envelope plus a non-raising generation call give
success=true; if the response text additionally defeats both the strict
parse and the brace-extraction fallback, summary and all five insight
fields are empty strings; and success=false can only come from an
invalid envelope or a raising generation call. -/
theorem pipeline_success_policy (gen : String → GenOutcome) (env : Envelope) :
    ((env.success = some true) → (∀ p, ∃ t, gen p = GenOutcome.returns t) →
      (analyzeInstagramProfile gen env).get? "success" = some (JVal.bool true))
    ∧ (∀ prompt t, env.success = some true →
        createStructuredPrompt env.profile env.recent_posts = .ok prompt →
        gen prompt = GenOutcome.returns t →
        jsonParse (stripMarkdownFences (t.getD "")) = none →
        braceExtract (stripMarkdownFences (t.getD "")) = none →
        (analyzeInstagramProfile gen env).get? "summary" = some (JVal.str "")
        ∧ (analyzeInstagramProfile gen env).get? "insights" =
            some (JVal.obj
              [("content_strategy", .str ""), ("audience_engagement", .str ""),
               ("brand_analysis", .str ""), ("growth_indicators", .str ""),
               ("content_performance", .str "")]))
    ∧ ((analyzeInstagramProfile gen env).get? "success" = some (JVal.bool false) →
        env.success ≠ some true ∨ ∃ p m, gen p = GenOutcome.raises m) := by
  refine ⟨?_, ?_, ?_⟩
  · intro hs hg
    obtain ⟨prompt, hp⟩ := createStructuredPrompt_ok env.profile env.recent_posts
    obtain ⟨t, ht⟩ := hg prompt
    have hrun := analyzeRun_returns gen env prompt t hs hp ht
    unfold analyzeInstagramProfile
    rw [hrun]
    rfl
  · intro prompt t hs hp hg hj hb
    have hrun := analyzeRun_returns gen env prompt t hs hp hg
    have hpf : parseWithFallback (stripMarkdownFences (t.getD "")) = JVal.obj [] := by
      simp [parseWithFallback, hj, hb]
    rw [hpf] at hrun
    constructor
    · unfold analyzeInstagramProfile
      rw [hrun]
      rfl
    · unfold analyzeInstagramProfile
      rw [hrun]
      rfl
  · intro hfalse
    by_cases hs : env.success = some true
    · obtain ⟨prompt, hp⟩ := createStructuredPrompt_ok env.profile env.recent_posts
      cases hgen : gen prompt with
      | raises m => exact Or.inr ⟨prompt, m, hgen⟩
      | returns t =>
        have hrun := analyzeRun_returns gen env prompt t hs hp hgen
        have hsucc : (analyzeInstagramProfile gen env).get? "success"
            = some (JVal.bool true) := by
          unfold analyzeInstagramProfile
          rw [hrun]
          rfl
        rw [hsucc] at hfalse
        simp at hfalse
    · exact Or.inl hs

/-- Witness for C1: the success envelope and the constant `hello`
response, which is unparseable even after fallback. -/
theorem pipeline_success_policy_witness :
    (demoEnv.success = some true
      ∧ (∀ p, ∃ t, genReturnsHello p = GenOutcome.returns t)
      ∧ createStructuredPrompt demoEnv.profile demoEnv.recent_posts
          = .ok (promptOfStats demoProfile [] ⟨0, 0, 0⟩)
      ∧ jsonParse (stripMarkdownFences ((some "hello" : Option String).getD "")) = none
      ∧ braceExtract (stripMarkdownFences ((some "hello" : Option String).getD "")) = none)
    ∧ (analyzeInstagramProfile genReturnsHello demoEnv).get? "success"
        = some (JVal.bool true)
    ∧ (analyzeInstagramProfile genReturnsHello demoEnv).get? "summary"
        = some (JVal.str "")
    ∧ (analyzeInstagramProfile genReturnsHello demoEnv).get? "insights"
        = some (JVal.obj
            [("content_strategy", .str ""), ("audience_engagement", .str ""),
             ("brand_analysis", .str ""), ("growth_indicators", .str ""),
             ("content_performance", .str "")]) :=
  ⟨⟨rfl, fun _ => ⟨some "hello", rfl⟩, rfl, rfl, rfl⟩,
   (pipeline_success_policy genReturnsHello demoEnv).1 rfl (fun _ => ⟨some "hello", rfl⟩),
   ((pipeline_success_policy genReturnsHello demoEnv).2.1
      (promptOfStats demoProfile [] ⟨0, 0, 0⟩) (some "hello") rfl rfl rfl rfl rfl).1,
   ((pipeline_success_policy genReturnsHello demoEnv).2.1
      (promptOfStats demoProfile [] ⟨0, 0, 0⟩) (some "hello") rfl rfl rfl rfl rfl).2⟩

/-- C7: an envelope whose success flag is false or absent makes the
orchestrator return the fixed invalid-input failure dict immediately,
with no generation call. -/
theorem invalid_input_shortcircuit (gen : String → GenOutcome) (env : Envelope)
    (h : env.success ≠ some true) :
    analyzeInstagramProfile gen env =
      JVal.obj [("success", .bool false),
                ("error", .str "Invalid profile data provided"),
                ("summary", .str ""), ("insights", .obj [])]
    ∧ genCallLog gen env = [] := by
  have hrun := analyzeRun_invalid gen env h
  constructor
  · unfold analyzeInstagramProfile
    rw [hrun]
    rfl
  · unfold genCallLog
    rw [hrun]

/-- Witness for C7 at an envelope with no success flag. -/
theorem invalid_input_shortcircuit_witness :
    demoEnvInvalid.success ≠ some true
    ∧ analyzeInstagramProfile genReturnsHello demoEnvInvalid =
        JVal.obj [("success", .bool false),
                  ("error", .str "Invalid profile data provided"),
                  ("summary", .str ""), ("insights", .obj [])]
    ∧ genCallLog genReturnsHello demoEnvInvalid = [] :=
  ⟨by decide,
   (invalid_input_shortcircuit genReturnsHello demoEnvInvalid (by decide)).1,
   (invalid_input_shortcircuit genReturnsHello demoEnvInvalid (by decide)).2⟩

/-- C8: a raising generation call yields success=false with the error
string `AI analysis failed: <message>` (which contains the underlying
message as a substring), empty summary and empty insights; the
exception itself never escapes. -/
theorem generation_failure_wrapped (gen : String → GenOutcome) (env : Envelope)
    (prompt msg : String)
    (hs : env.success = some true)
    (hp : createStructuredPrompt env.profile env.recent_posts = .ok prompt)
    (hg : gen prompt = GenOutcome.raises msg) :
    analyzeInstagramProfile gen env =
      JVal.obj [("success", .bool false),
                ("error", .str ("AI analysis failed: " ++ msg)),
                ("summary", .str ""), ("insights", .obj [])]
    ∧ (∃ l r, "AI analysis failed: " ++ msg = l ++ msg ++ r) := by
  have hrun := analyzeRun_raises gen env prompt msg hs hp hg
  constructor
  · unfold analyzeInstagramProfile
    rw [hrun]
    rfl
  · exact ⟨"AI analysis failed: ", "", by simp⟩

/-- Witness for C8 with a double that raises `quota exceeded`. -/
theorem generation_failure_wrapped_witness :
    (demoEnv.success = some true
      ∧ createStructuredPrompt demoEnv.profile demoEnv.recent_posts
          = .ok (promptOfStats demoProfile [] ⟨0, 0, 0⟩)
      ∧ genRaisesQuota (promptOfStats demoProfile [] ⟨0, 0, 0⟩)
          = GenOutcome.raises "quota exceeded")
    ∧ analyzeInstagramProfile genRaisesQuota demoEnv =
        JVal.obj [("success", .bool false),
                  ("error", .str ("AI analysis failed: " ++ "quota exceeded")),
                  ("summary", .str ""), ("insights", .obj [])]
    ∧ (∃ l r, "AI analysis failed: " ++ "quota exceeded" = l ++ "quota exceeded" ++ r) :=
  ⟨⟨rfl, rfl, rfl⟩,
   (generation_failure_wrapped genRaisesQuota demoEnv _ "quota exceeded" rfl rfl rfl).1,
   (generation_failure_wrapped genRaisesQuota demoEnv _ "quota exceeded" rfl rfl rfl).2⟩

/-- C9: every success result carries `raw_response` equal to the raw
generation text, exactly as received and before any fence stripping,
parsing or normalization. -/
theorem raw_response_preserved (gen : String → GenOutcome) (env : Envelope)
    (h : (analyzeInstagramProfile gen env).get? "success" = some (JVal.bool true)) :
    ∃ prompt t, createStructuredPrompt env.profile env.recent_posts = .ok prompt
      ∧ gen prompt = GenOutcome.returns t
      ∧ (analyzeInstagramProfile gen env).get? "raw_response"
          = some (JVal.str (t.getD "")) := by
  by_cases hs : env.success = some true
  · obtain ⟨prompt, hp⟩ := createStructuredPrompt_ok env.profile env.recent_posts
    cases hgen : gen prompt with
    | raises m =>
      have hrun := analyzeRun_raises gen env prompt m hs hp hgen
      have hfail : (analyzeInstagramProfile gen env).get? "success"
          = some (JVal.bool false) := by
        unfold analyzeInstagramProfile
        rw [hrun]
        rfl
      exact absurd (hfail.symm.trans h) (by simp)
    | returns t =>
      have hrun := analyzeRun_returns gen env prompt t hs hp hgen
      refine ⟨prompt, t, hp, hgen, ?_⟩
      unfold analyzeInstagramProfile
      rw [hrun]
      rfl
  · have hrun := analyzeRun_invalid gen env hs
    have hfail : (analyzeInstagramProfile gen env).get? "success"
        = some (JVal.bool false) := by
      unfold analyzeInstagramProfile
      rw [hrun]
      rfl
    exact absurd (hfail.symm.trans h) (by simp)

/-- Witness for C9 with the constant `hello` response. -/
theorem raw_response_preserved_witness :
    (analyzeInstagramProfile genReturnsHello demoEnv).get? "success"
        = some (JVal.bool true)
    ∧ ∃ prompt t,
        createStructuredPrompt demoEnv.profile demoEnv.recent_posts = .ok prompt
        ∧ genReturnsHello prompt = GenOutcome.returns t
        ∧ (analyzeInstagramProfile genReturnsHello demoEnv).get? "raw_response"
            = some (JVal.str (t.getD "")) :=
  ⟨rfl, raw_response_preserved genReturnsHello demoEnv rfl⟩

/-- C10: a failure result always carries the empty insights dict and
no `raw_response` key at all, while a success result carries the
five-field insights dict and a `raw_response` string. -/
theorem result_field_discipline (gen : String → GenOutcome) (env : Envelope) :
    ((analyzeInstagramProfile gen env).get? "success" = some (JVal.bool false) →
      (analyzeInstagramProfile gen env).get? "insights" = some (JVal.obj [])
      ∧ (analyzeInstagramProfile gen env).get? "raw_response" = none)
    ∧ ((analyzeInstagramProfile gen env).get? "success" = some (JVal.bool true) →
      (∃ ins, (analyzeInstagramProfile gen env).get? "insights" = some ins
        ∧ insightsShape ins)
      ∧ ∃ s, (analyzeInstagramProfile gen env).get? "raw_response"
          = some (JVal.str s)) := by
  by_cases hs : env.success = some true
  · obtain ⟨prompt, hp⟩ := createStructuredPrompt_ok env.profile env.recent_posts
    cases hgen : gen prompt with
    | raises m =>
      have hrun := analyzeRun_raises gen env prompt m hs hp hgen
      constructor
      · intro _
        constructor
        · unfold analyzeInstagramProfile
          rw [hrun]
          rfl
        · unfold analyzeInstagramProfile
          rw [hrun]
          rfl
      · intro hT
        have hF : (analyzeInstagramProfile gen env).get? "success"
            = some (JVal.bool false) := by
          unfold analyzeInstagramProfile
          rw [hrun]
          rfl
        exact absurd (hF.symm.trans hT) (by simp)
    | returns t =>
      have hrun := analyzeRun_returns gen env prompt t hs hp hgen
      constructor
      · intro hF
        have hT : (analyzeInstagramProfile gen env).get? "success"
            = some (JVal.bool true) := by
          unfold analyzeInstagramProfile
          rw [hrun]
          rfl
        exact absurd (hT.symm.trans hF) (by simp)
      · intro _
        obtain ⟨sm, ins, heq, hins⟩ := validateAndNormalize_shape
          (parseWithFallback (stripMarkdownFences (t.getD "")))
        constructor
        · refine ⟨ins, ?_, hins⟩
          have hV : (analyzeInstagramProfile gen env).get? "insights"
              = some (((validateAndNormalize (parseWithFallback
                  (stripMarkdownFences (t.getD "")))).get? "insights").getD .null) := by
            unfold analyzeInstagramProfile
            rw [hrun]
            rfl
          rw [heq] at hV
          exact hV
        · refine ⟨t.getD "", ?_⟩
          unfold analyzeInstagramProfile
          rw [hrun]
          rfl
  · have hrun := analyzeRun_invalid gen env hs
    constructor
    · intro _
      constructor
      · unfold analyzeInstagramProfile
        rw [hrun]
        rfl
      · unfold analyzeInstagramProfile
        rw [hrun]
        rfl
    · intro hT
      have hF : (analyzeInstagramProfile gen env).get? "success"
          = some (JVal.bool false) := by
        unfold analyzeInstagramProfile
        rw [hrun]
        rfl
      exact absurd (hF.symm.trans hT) (by simp)

/-- Witness for C10: the raising double (failure side) and the `hello`
double (success side). -/
theorem result_field_discipline_witness :
    ((analyzeInstagramProfile genRaisesQuota demoEnv).get? "success"
        = some (JVal.bool false)
      ∧ (analyzeInstagramProfile genRaisesQuota demoEnv).get? "insights"
          = some (JVal.obj [])
      ∧ (analyzeInstagramProfile genRaisesQuota demoEnv).get? "raw_response" = none)
    ∧ ((analyzeInstagramProfile genReturnsHello demoEnv).get? "success"
        = some (JVal.bool true)
      ∧ (∃ ins, (analyzeInstagramProfile genReturnsHello demoEnv).get? "insights"
          = some ins ∧ insightsShape ins)
      ∧ ∃ s, (analyzeInstagramProfile genReturnsHello demoEnv).get? "raw_response"
          = some (JVal.str s)) :=
  ⟨⟨rfl, ((result_field_discipline genRaisesQuota demoEnv).1 rfl).1,
    ((result_field_discipline genRaisesQuota demoEnv).1 rfl).2⟩,
   ⟨rfl, ((result_field_discipline genReturnsHello demoEnv).2 rfl).1,
    ((result_field_discipline genReturnsHello demoEnv).2 rfl).2⟩⟩

/-- The summary coercion equals a plain `str()` application (the
string branch is the identity on strings). -/
theorem coerced_eq_pyStr (v : JVal) :
    (if v.isStr then v else JVal.str (pyStr v)) = JVal.str (pyStr v) := by
  cases v <;> rfl

/-- C2: the normalizer always yields a string summary plus exactly the
five insight keys with string values (extra keys discarded, missing
keys defaulted, non-strings coerced via `str()`); a non-mapping input
yields the fixed `unexpected format` fallback; and every pipeline
result with success=true carries that shape. -/
theorem normalizer_canonical_shape (parsed : JVal) :
    normalizedShape (validateAndNormalize parsed)
    ∧ (parsed.isObj = false → validateAndNormalize parsed = fallbackNormalized)
    ∧ (∀ kvs, parsed = JVal.obj kvs →
        (validateAndNormalize parsed).get? "summary" =
          some (JVal.str (pyStr ((List.lookup "summary" kvs).getD (.str "")))))
    ∧ (∀ (gen : String → GenOutcome) (env : Envelope),
        (analyzeInstagramProfile gen env).get? "success" = some (JVal.bool true) →
        ∃ sm ins, (analyzeInstagramProfile gen env).get? "summary"
            = some (JVal.str sm)
          ∧ (analyzeInstagramProfile gen env).get? "insights" = some ins
          ∧ insightsShape ins) := by
  refine ⟨validateAndNormalize_shape parsed, ?_, ?_, ?_⟩
  · intro hno
    cases parsed with
    | obj kvs => simp [JVal.isObj] at hno
    | null => rfl
    | bool b => rfl
    | num q => rfl
    | str s => rfl
    | arr xs => rfl
  · intro kvs hk
    subst hk
    simp only [validateAndNormalize]
    rw [coerced_eq_pyStr]
    rfl
  · intro gen env h
    by_cases hs : env.success = some true
    · obtain ⟨prompt, hp⟩ := createStructuredPrompt_ok env.profile env.recent_posts
      cases hgen : gen prompt with
      | raises m =>
        have hrun := analyzeRun_raises gen env prompt m hs hp hgen
        have hF : (analyzeInstagramProfile gen env).get? "success"
            = some (JVal.bool false) := by
          unfold analyzeInstagramProfile
          rw [hrun]
          rfl
        exact absurd (hF.symm.trans h) (by simp)
      | returns t =>
        have hrun := analyzeRun_returns gen env prompt t hs hp hgen
        obtain ⟨sm, ins, heq, hins⟩ := validateAndNormalize_shape
          (parseWithFallback (stripMarkdownFences (t.getD "")))
        refine ⟨sm, ins, ?_, ?_, hins⟩
        · have hV : (analyzeInstagramProfile gen env).get? "summary"
              = some (((validateAndNormalize (parseWithFallback
                  (stripMarkdownFences (t.getD "")))).get? "summary").getD .null) := by
            unfold analyzeInstagramProfile
            rw [hrun]
            rfl
          rw [heq] at hV
          exact hV
        · have hV : (analyzeInstagramProfile gen env).get? "insights"
              = some (((validateAndNormalize (parseWithFallback
                  (stripMarkdownFences (t.getD "")))).get? "insights").getD .null) := by
            unfold analyzeInstagramProfile
            rw [hrun]
            rfl
          rw [heq] at hV
          exact hV
    · have hrun := analyzeRun_invalid gen env hs
      have hF : (analyzeInstagramProfile gen env).get? "success"
          = some (JVal.bool false) := by
        unfold analyzeInstagramProfile
        rw [hrun]
        rfl
      exact absurd (hF.symm.trans h) (by simp)

/-- Witness for C2: the spec's normalizer examples — a non-mapping
input (`[]`) hits the fixed fallback, a numeric summary is coerced to
the string `42`, and a concrete success run has the canonical shape. -/
theorem normalizer_canonical_shape_witness :
    (normalizedShape (validateAndNormalize (JVal.arr []))
      ∧ (JVal.arr []).isObj = false
      ∧ validateAndNormalize (JVal.arr []) = fallbackNormalized)
    ∧ (validateAndNormalize (JVal.obj [("summary", JVal.num 42)])).get? "summary"
        = some (JVal.str (pyStr ((List.lookup "summary"
            [("summary", JVal.num 42)]).getD (.str ""))))
    ∧ ((analyzeInstagramProfile genReturnsHello demoEnv).get? "success"
          = some (JVal.bool true)
      ∧ ∃ sm ins, (analyzeInstagramProfile genReturnsHello demoEnv).get? "summary"
            = some (JVal.str sm)
        ∧ (analyzeInstagramProfile genReturnsHello demoEnv).get? "insights" = some ins
        ∧ insightsShape ins) :=
  ⟨⟨(normalizer_canonical_shape (JVal.arr [])).1, rfl,
    (normalizer_canonical_shape (JVal.arr [])).2.1 rfl⟩,
   (normalizer_canonical_shape (JVal.obj [("summary", JVal.num 42)])).2.2.1
     [("summary", JVal.num 42)] rfl,
   ⟨rfl, (normalizer_canonical_shape (JVal.obj [])).2.2.2 genReturnsHello demoEnv rfl⟩⟩
